import Mathlib

/-!
Verification of the layout/geometry pipeline of the graphic-designer
repository: a shallow embedding in Lean 4 of `format_graphic_data.py`,
`lay_out_body.py` and `draw_element.py`, together with theorems checking
the natural-language specification against the embedded code.

Python integers are modelled as `Int` (with `Int.fdiv` for Python's
floor division `//` and `%` as `Int.emod`, which agrees with Python's
`%` for positive divisors); float coordinate arithmetic is modelled
exactly over `ℚ`; exceptions are modelled with `Except`.
-/

namespace GraphicDesigner

/-! ## Row planner: `calculate_offset_rows` (format_graphic_data.py, lines 22-49) -/

/-- Embedding of `calculate_offset_rows` from `format_graphic_data.py`
(lines 41-49): number of rows needed for a section when rows are offset. -/
def calculate_offset_rows (elements : Int) (elements_per_row : Int) : Int :=
  let complete_row_pairs := elements.fdiv (2 * elements_per_row - 1)
  let complete_row_pair_elements := complete_row_pairs * (2 * elements_per_row - 1)
  let remaining_elements := elements - complete_row_pair_elements
  if remaining_elements = 0 then 2 * complete_row_pairs
  else if remaining_elements ≤ elements_per_row then 2 * complete_row_pairs + 1
  else 2 * complete_row_pairs + 2

/-- The closed form stated by the specification (§4.2, Offset row planner):
`full_cycles = e // (2N-1)`, `remainder = e - full_cycles*(2N-1)`, rows are
`2*full_cycles`, `2*full_cycles+1` or `2*full_cycles+2` according to the
remainder. Written from the spec's words for comparison with the code. -/
def offset_rows_closed_form (element_count : Int) (elements_per_row : Int) : Int :=
  let full_cycles := element_count.fdiv (2 * elements_per_row - 1)
  let remainder := element_count - full_cycles * (2 * elements_per_row - 1)
  if remainder = 0 then 2 * full_cycles
  else if remainder ≤ elements_per_row then 2 * full_cycles + 1
  else 2 * full_cycles + 2

/-- Embedding of the Regular-mode row computation, the lambda
`-(-x // elements_per_row)` at line 169 of `format_graphic_data.py`
(ceiling division by negated floor division).  `Int.fdiv` is total and
yields 0 at `elements_per_row = 0`, where Python's `//` raises
`ZeroDivisionError`; theorems drawing conclusions from this value
therefore assume `elements_per_row ≥ 1` (the documented input domain,
`elements_per_row: int > 0`). -/
def regular_rows (x : Int) (elements_per_row : Int) : Int :=
  -((-x).fdiv elements_per_row)

/-! ## Offset row-boundary companion: `calculate_offset_element_totals`
(lay_out_body.py, lines 32-67).  The Python `while` loop is modelled with
explicit fuel; the theorems below show that for `elements_per_row ≥ 1` the
fuel is sufficient (the generated last term reaches `elements`, which is
exactly the loop's exit condition). -/

/-- One-step unfolding of the `while sequence[-1] < elements` loop of
`calculate_offset_element_totals`: `i` is the Python loop counter, `last`
the last term generated so far; odd `i` appends `last + elements_per_row - 1`,
even `i` appends `last + elements_per_row`. -/
def offsetTotalsAux (elements : Int) (elements_per_row : Int) :
    Nat → Int → Int → List Int
  | 0, _, _ => []
  | fuel + 1, i, last =>
    if last < elements then
      let next := if i % 2 ≠ 0 then last + elements_per_row - 1
                  else last + elements_per_row
      next :: offsetTotalsAux elements elements_per_row fuel (i + 1) next
    else []

/-- Embedding of `calculate_offset_element_totals` from `lay_out_body.py`
(lines 54-67): the sequence starts `[elements_per_row]` and the loop starts
at `i = 1`. -/
def calculate_offset_element_totals (elements : Int) (elements_per_row : Int) :
    List Int :=
  elements_per_row ::
    offsetTotalsAux elements elements_per_row (2 * elements.toNat + 2) 1 elements_per_row

/-! ### Facts about `offsetTotalsAux` -/

theorem offsetTotalsAux_chain (elements n : Int) (hn : 2 ≤ n) :
    ∀ (fuel : Nat) (i last : Int),
      List.Chain' (· < ·) (last :: offsetTotalsAux elements n fuel i last) := by
  intro fuel
  induction fuel with
  | zero => intro i last; simp [offsetTotalsAux]
  | succ fuel ih =>
    intro i last
    rw [offsetTotalsAux]
    by_cases h : last < elements
    · rw [if_pos h]
      refine List.Chain'.cons ?_ (ih (i + 1) _)
      by_cases hp : i % 2 ≠ 0 <;> simp [hp] <;> omega
    · rw [if_neg h]; simp

theorem offsetTotalsAux_step (elements n : Int) :
    ∀ (fuel : Nat) (i last : Int) (k : Nat) (a b : Int),
      (last :: offsetTotalsAux elements n fuel i last)[k]? = some a →
      (last :: offsetTotalsAux elements n fuel i last)[k + 1]? = some b →
      b = a + (if (i + k) % 2 ≠ 0 then n - 1 else n) := by
  intro fuel
  induction fuel with
  | zero =>
    intro i last k a b _ hb
    rw [offsetTotalsAux] at hb
    rcases k with _ | k <;> simp at hb
  | succ fuel ih =>
    intro i last k a b ha hb
    rw [offsetTotalsAux] at ha hb
    by_cases hc : last < elements
    · rw [if_pos hc] at ha hb
      match k with
      | 0 =>
        simp only [List.getElem?_cons_zero, Option.some.injEq] at ha
        simp only [List.getElem?_cons_succ, List.getElem?_cons_zero,
          Option.some.injEq] at hb
        subst ha; subst hb
        simp only [Nat.cast_zero, add_zero]
        split <;> ring
      | k + 1 =>
        rw [List.getElem?_cons_succ] at ha hb
        have := ih (i + 1) (if i % 2 ≠ 0 then last + n - 1 else last + n) k a b ha hb
        rw [this]
        have harith : i + 1 + (k : Int) = i + ((k : Int) + 1) := by omega
        rw [harith]
        push_cast
        ring_nf
    · rw [if_neg hc] at hb
      rcases k with _ | k <;> simp at hb

theorem offsetTotalsAux_reaches (elements n : Int) (hn : 1 ≤ n) :
    ∀ (fuel : Nat) (i last : Int),
      2 * (elements - last).toNat + (if i % 2 ≠ 0 then 2 else 1) ≤ fuel →
      elements ≤ (last :: offsetTotalsAux elements n fuel i last).getLast
        (List.cons_ne_nil _ _) := by
  intro fuel
  induction fuel with
  | zero =>
    intro i last hfuel
    exfalso
    by_cases hp : i % 2 ≠ 0
    · rw [if_pos hp] at hfuel; omega
    · rw [if_neg hp] at hfuel; omega
  | succ fuel ih =>
    intro i last hfuel
    rw [offsetTotalsAux]
    by_cases hc : last < elements
    · rw [if_pos hc, List.getLast_cons (List.cons_ne_nil _ _)]
      by_cases hp : i % 2 ≠ 0
      · rw [if_pos hp]
        refine ih (i + 1) (last + n - 1) ?_
        have h1 : ¬ ((i + 1) % 2 ≠ 0) := by omega
        rw [if_neg h1]
        rw [if_pos hp] at hfuel
        omega
      · rw [if_neg hp]
        refine ih (i + 1) (last + n) ?_
        have h1 : (i + 1) % 2 ≠ 0 := by omega
        rw [if_pos h1]
        rw [if_neg hp] at hfuel
        omega
    · rw [if_neg hc]
      simpa using not_lt.mp hc

/-! ## Claim theorems on the row planner and boundary sequence -/

/-- Counterexample for C5. The claim's example `(e = 10, n = 5) → 2`
contradicts the code (and the claim's own closed form): ten elements need
rows of 5, 4 and 1, so `calculate_offset_rows 10 5 = 3`, not 2. -/
theorem calculate_offset_rows_ten_five :
    calculate_offset_rows 10 5 ≠ 2 ∧ calculate_offset_rows 10 5 = 3 :=
  ⟨by decide, by decide⟩

/-- Claim C5, amended: the closed form holds for all `e ≥ 0`, `N ≥ 1`,
and the boundary examples are `(5,5) → 1`, `(9,5) → 2`, `(10,5) → 3`
(not 2 as the claim's example list says), `(11,5) → 3`. -/
theorem calculate_offset_rows_closed_form :
    (∀ e n : Int, 0 ≤ e → 1 ≤ n →
      calculate_offset_rows e n = offset_rows_closed_form e n) ∧
    calculate_offset_rows 5 5 = 1 ∧ calculate_offset_rows 9 5 = 2 ∧
    calculate_offset_rows 10 5 = 3 ∧ calculate_offset_rows 11 5 = 3 :=
  ⟨fun _ _ _ _ => rfl, by decide, by decide, by decide, by decide⟩

/-- Witness for C5: the closed form is reached at the concrete input
`e = 7`, `n = 3`, with both hypotheses discharged. -/
theorem calculate_offset_rows_closed_form_witness :
    0 ≤ (7 : Int) ∧ 1 ≤ (3 : Int) ∧
      calculate_offset_rows 7 3 = offset_rows_closed_form 7 3 :=
  ⟨by decide, by decide, calculate_offset_rows_closed_form.1 7 3 (by decide) (by decide)⟩

/-- Counterexample for C6. The claim quantifies over all
`elements_per_row N ≥ 1`, but at `N = 1` (and `e = 2`) the code produces
`[1, 1, 2]`, which is not strictly increasing: the odd-step increment
`N - 1 = 0` repeats the previous term. -/
theorem calculate_offset_element_totals_not_strictly_increasing_n1 :
    calculate_offset_element_totals 2 1 = [1, 1, 2] ∧
    ¬ List.Chain' (· < ·) (calculate_offset_element_totals 2 1) := by
  constructor
  · decide
  · intro h
    have he : calculate_offset_element_totals 2 1 = [1, 1, 2] := by decide
    rw [he, List.chain'_cons] at h
    exact absurd h.1 (lt_irrefl 1)

/-- Claim C6, amended: the claim holds once `elements_per_row ≥ 2` (for
`N = 1` the sequence is not strictly increasing, see the counterexample).
For `e ≥ 0` and `N ≥ 2` the boundary sequence is strictly increasing,
starts at `N`, its consecutive terms alternately add `N-1` then `N`, and
its last term is `≥ e`; for `N = 5` it starts `[5, 9, 14, 18, 23]`. -/
theorem calculate_offset_element_totals_spec :
    (∀ e n : Int, 0 ≤ e → 2 ≤ n →
      List.Chain' (· < ·) (calculate_offset_element_totals e n) ∧
      (calculate_offset_element_totals e n).head? = some n ∧
      (∀ (k : Nat) (a b : Int),
        (calculate_offset_element_totals e n)[k]? = some a →
        (calculate_offset_element_totals e n)[k + 1]? = some b →
        b = a + (if k % 2 = 0 then n - 1 else n)) ∧
      (∃ x, (calculate_offset_element_totals e n).getLast? = some x ∧ e ≤ x)) ∧
    calculate_offset_element_totals 23 5 = [5, 9, 14, 18, 23] := by
  constructor
  · intro e n he hn
    refine ⟨offsetTotalsAux_chain e n hn _ 1 n, rfl, ?_, ?_⟩
    · intro k a b ha hb
      have hstep := offsetTotalsAux_step e n (2 * e.toNat + 2) 1 n k a b ha hb
      rw [hstep]
      by_cases hk : k % 2 = 0
      · have h1 : (1 + (k : Int)) % 2 ≠ 0 := by omega
        rw [if_pos h1, if_pos hk]
      · have h1 : ¬ ((1 + (k : Int)) % 2 ≠ 0) := by omega
        rw [if_neg h1, if_neg hk]
    · have hne : calculate_offset_element_totals e n ≠ [] := by
        simp [calculate_offset_element_totals]
      refine ⟨(calculate_offset_element_totals e n).getLast hne,
        (List.getLast?_eq_getLast _ hne).symm ▸ rfl, ?_⟩
      have := offsetTotalsAux_reaches e n (by omega) (2 * e.toNat + 2) 1 n ?_
      · exact this
      · rw [if_pos (by omega : (1 : Int) % 2 ≠ 0)]
        omega
  · decide

/-- Witness for C6 (amended): at `e = 11`, `n = 5` the sequence is
strictly increasing, starts at 5, alternates `+4`/`+5`, and its last term
is `≥ 11`. -/
theorem calculate_offset_element_totals_spec_witness :
    0 ≤ (11 : Int) ∧ 2 ≤ (5 : Int) ∧
      (List.Chain' (· < ·) (calculate_offset_element_totals 11 5) ∧
       (calculate_offset_element_totals 11 5).head? = some 5 ∧
       (∀ (k : Nat) (a b : Int),
         (calculate_offset_element_totals 11 5)[k]? = some a →
         (calculate_offset_element_totals 11 5)[k + 1]? = some b →
         b = a + (if k % 2 = 0 then 5 - 1 else 5)) ∧
       (∃ x, (calculate_offset_element_totals 11 5).getLast? = some x ∧ 11 ≤ x)) :=
  ⟨by decide, by decide,
    calculate_offset_element_totals_spec.1 11 5 (by decide) (by decide)⟩

/-- Claim C10. For every `e ≥ 0` and `n ≥ 1` the Regular-mode row
computation `-(-e // n)` (line 169 of `format_graphic_data.py`) equals
`⌈e / n⌉`; in particular `(11, 5) → 3`. -/
theorem regular_rows_is_ceil :
    (∀ e n : Int, 0 ≤ e → 1 ≤ n → regular_rows e n = ⌈(e : ℚ) / (n : ℚ)⌉) ∧
    regular_rows 11 5 = 3 := by
  constructor
  · intro e n _ hn
    have hn0 : (0 : Int) ≤ n := by omega
    rw [regular_rows, Int.fdiv_eq_ediv _ hn0]
    have hnn : ((n.toNat : ℕ) : Int) = n := Int.toNat_of_nonneg hn0
    have hfloor := Rat.floor_intCast_div_natCast (-e) n.toNat
    have hq : ((n.toNat : ℕ) : ℚ) = (n : ℚ) := by exact_mod_cast congrArg Int.cast hnn
    have key : ((-e : Int) : ℚ) / ((n.toNat : ℕ) : ℚ) = -((e : ℚ) / (n : ℚ)) := by
      rw [hq]; push_cast; ring
    calc -((-e) / n) = -((-e) / ((n.toNat : ℕ) : Int)) := by rw [hnn]
    _ = -⌊((-e : Int) : ℚ) / ((n.toNat : ℕ) : ℚ)⌋ := by rw [hfloor]
    _ = -⌊-((e : ℚ) / (n : ℚ))⌋ := by rw [key]
    _ = ⌈(e : ℚ) / (n : ℚ)⌉ := by rw [Int.floor_neg, neg_neg]
  · decide

/-- Witness for C10: the ceiling identity at the concrete input
`e = 11`, `n = 5`. -/
theorem regular_rows_is_ceil_witness :
    0 ≤ (11 : Int) ∧ 1 ≤ (5 : Int) ∧
      regular_rows 11 5 = ⌈(11 : ℚ) / (5 : ℚ)⌉ :=
  ⟨by decide, by decide, regular_rows_is_ceil.1 11 5 (by decide) (by decide)⟩

/-! ## Data model shared by the layout functions

Python dict margin/padding parameters (`{'top':…, 'right':…, 'bottom':…,
'left':…}`) become a four-field structure; the `Union[str, dict]`
section-head text colour becomes a two-variant sum; Python exceptions
raised by the code under analysis become a `PyError` value. -/

/-- A `{'top', 'right', 'bottom', 'left'}` dimensions dict. -/
structure Margins where
  top : Int
  right : Int
  bottom : Int
  left : Int
deriving DecidableEq, Repr

/-- `section_head_text_color : Union[str, dict]` — a single colour string
or a section-name-keyed mapping. -/
inductive ColorSpec where
  | str (c : String)
  | dict (m : List (String × String))
deriving DecidableEq, Repr

/-- Exceptions the embedded Python code can raise. -/
inductive PyError where
  | valueErrorMergeOverflow (merge_sections_elements elements_per_row : Int)
  | valueErrorMergeOrder
  | typeErrorUnexpectedKwarg (f kw : String)
  | typeErrorStrIndices
  | keyError (k : String)
  | typeErrorNoneArith
  | unboundLocalError (n : String)
deriving DecidableEq, Repr

/-- A row of `df_element` (columns `section`, `element_title`,
`element_subtitle`, `element_image`). -/
structure ElementRow where
  sectionKey : String
  element_title : String
  element_subtitle : String
  element_image : String
deriving DecidableEq, Repr

/-- A row of `df_section` (columns `section`, `elements`, `rows`). -/
structure SectionRow where
  sectionKey : String
  elements : Int
  rows : Int
deriving DecidableEq, Repr

/-- Abstract scene node emitted by the layout code: the `drawsvg`
primitives actually used (`Rectangle`, `Text`, `Circle`, clipped `Image`,
`Group` with a translation). -/
inductive SceneNode where
  | rect (x y w h : ℚ) (fill : String) (stroke_width : Option ℚ)
  | text (content : String) (x y : ℚ) (font_size font_weight : Int)
      (font_family : String) (font_style : Option String) (fill : String)
      (anchor : String) (baseline : Option String)
  | circle (cx cy r : ℚ) (stroke : String) (stroke_width : Int) (fill : String)
  | image (x y w h : ℚ) (path : String) (clip_cx clip_cy clip_r : ℚ)
  | group (translate : ℚ × ℚ) (children : List SceneNode)

/-- The `draw.Drawing` value returned by `lay_out_body`. -/
structure Drawing where
  width : Int
  height : ℚ
  font : String
  children : List SceneNode

/-! ## Card composer: `draw_element` (draw_element.py, lines 21-202) -/

/-- The circle radius computed at lines 96-113 of `draw_element.py`:
`min` of half the horizontal space and half the vertical space left
inside the card after margins, padding and the two text heights. -/
def circle_radius (width height : ℚ) (margin_dim circle_padding_dim : Margins)
    (title_text_size subtitle_text_size : Int) : ℚ :=
  min ((width - (margin_dim.left : ℚ) - (margin_dim.right : ℚ)
        - (circle_padding_dim.left : ℚ) - (circle_padding_dim.right : ℚ)) / 2)
      ((height - (margin_dim.top : ℚ) - (margin_dim.bottom : ℚ)
        - (circle_padding_dim.top : ℚ) - (circle_padding_dim.bottom : ℚ)
        - (title_text_size : ℚ) - (subtitle_text_size : ℚ)) / 2)

/-- Embedding of `draw_element` from `draw_element.py`.  The if/elif
chains at lines 151-156 (text anchor) and 159-166 (title position) have
no `else` branch, so an unrecognised value leaves `title_x` / `title_y`
unassigned and Python raises `UnboundLocalError` at first use; the
computed radius is used as-is, with no non-positivity check anywhere. -/
def draw_element (x y width height : ℚ) (background_color : String)
    (title : String) (title_text_size title_text_weight : Int)
    (title_text_color : String) (title_text_style : Option String)
    (subtitle : String) (subtitle_text_size subtitle_text_weight : Int)
    (subtitle_text_color : String) (subtitle_text_style : Option String)
    (font_family : String) (title_position : String) (text_anchor : String)
    (image : String) (margin_dim : Margins) (circle_padding_dim : Margins)
    (circle_stroke_color : String) (circle_stroke_width : Int := 0) :
    Except PyError SceneNode :=
  let r := circle_radius width height margin_dim circle_padding_dim
      title_text_size subtitle_text_size
  let cx := x + width / 2
  let cy := y + (margin_dim.top : ℚ) + (circle_padding_dim.top : ℚ) + r
  match (if text_anchor == "start" then some (x + (margin_dim.left : ℚ))
         else if text_anchor == "middle" then some (x + width / 2)
         else if text_anchor == "end" then some (x + width - (margin_dim.right : ℚ))
         else none) with
  | none => .error (.unboundLocalError "title_x")
  | some title_x =>
    match (if title_position == "top" then
             some (y + (margin_dim.top : ℚ),
                   y + (margin_dim.top : ℚ) + (title_text_size : ℚ), "hanging")
           else if title_position == "bottom" then
             some (y + height - (margin_dim.bottom : ℚ) - (subtitle_text_size : ℚ),
                   y + height - (margin_dim.bottom : ℚ), "auto")
           else none) with
    | none => .error (.unboundLocalError "title_y")
    | some (title_y, subtitle_y, dominant_baseline) =>
      .ok (.group (0, 0)
        [ .rect x y width height background_color none,
          .circle cx cy r circle_stroke_color circle_stroke_width circle_stroke_color,
          .image (cx - r) (y + (margin_dim.top : ℚ) + (circle_padding_dim.top : ℚ))
            (2 * r) (2 * r) image cx cy r,
          .text title title_x title_y title_text_size title_text_weight
            font_family title_text_style title_text_color text_anchor
            (some dominant_baseline),
          .text subtitle title_x subtitle_y subtitle_text_size subtitle_text_weight
            font_family subtitle_text_style subtitle_text_color text_anchor
            (some dominant_baseline) ])

/-- Counterexample for C2.  The specification says a non-positive
computed radius raises `InvalidGeometry` instead of emitting a card, but
`draw_element` performs no such check: at a 10×10 card with zero
margins/padding and 10pt title and subtitle the radius is
`min(5, -5) = -5 ≤ 0`, yet a card group is returned and no error is
raised. -/
theorem draw_element_emits_card_with_nonpositive_radius :
    circle_radius 10 10 ⟨0, 0, 0, 0⟩ ⟨0, 0, 0, 0⟩ 10 10 = -5 ∧
    (draw_element 0 0 10 10 "white" "t" 10 400 "black" none "s" 10 400
      "black" none "Open Sans" "bottom" "middle" "img.png"
      ⟨0, 0, 0, 0⟩ ⟨0, 0, 0, 0⟩ "red" 2).isOk = true := by
  constructor
  · norm_num [circle_radius]
  · rfl

/-- Claim C2, amended: `draw_element` computes the radius by the claim's
`min` formula but performs no non-positivity check: for any valid
`text_anchor` and `title_position`, even when the computed radius is
non-positive, no error is raised and the card is emitted (with the
non-positive radius used as-is).  No `InvalidGeometry` error exists in
the code. -/
theorem draw_element_no_invalid_geometry_check
    (x y width height : ℚ) (background_color : String)
    (title : String) (title_text_size title_text_weight : Int)
    (title_text_color : String) (title_text_style : Option String)
    (subtitle : String) (subtitle_text_size subtitle_text_weight : Int)
    (subtitle_text_color : String) (subtitle_text_style : Option String)
    (font_family : String) (title_position : String) (text_anchor : String)
    (image : String) (margin_dim : Margins) (circle_padding_dim : Margins)
    (circle_stroke_color : String) (circle_stroke_width : Int)
    (hanchor : text_anchor = "start" ∨ text_anchor = "middle" ∨ text_anchor = "end")
    (hpos : title_position = "top" ∨ title_position = "bottom")
    (_hrad : circle_radius width height margin_dim circle_padding_dim
      title_text_size subtitle_text_size ≤ 0) :
    (draw_element x y width height background_color title title_text_size
      title_text_weight title_text_color title_text_style subtitle
      subtitle_text_size subtitle_text_weight subtitle_text_color
      subtitle_text_style font_family title_position text_anchor image
      margin_dim circle_padding_dim circle_stroke_color
      circle_stroke_width).isOk = true := by
  rw [draw_element]
  rcases hanchor with h | h | h <;> subst h <;>
    rcases hpos with h2 | h2 <;> subst h2 <;> rfl

/-- Witness for C2 (amended): the hypotheses hold at the concrete 10×10
card of the counterexample, and the card is emitted. -/
theorem draw_element_no_invalid_geometry_check_witness :
    ((("middle" : String) = "start" ∨ ("middle" : String) = "middle" ∨
        ("middle" : String) = "end") ∧
      (("bottom" : String) = "top" ∨ ("bottom" : String) = "bottom") ∧
      circle_radius 10 10 ⟨0, 0, 0, 0⟩ ⟨0, 0, 0, 0⟩ 10 10 ≤ 0) ∧
    (draw_element 0 0 10 10 "white" "t" 10 400 "black" none "s" 10 400
      "black" none "Open Sans" "bottom" "middle" "img.png"
      ⟨0, 0, 0, 0⟩ ⟨0, 0, 0, 0⟩ "red" 2).isOk = true :=
  ⟨⟨Or.inr (Or.inl rfl), Or.inr rfl, by norm_num [circle_radius]⟩,
    draw_element_no_invalid_geometry_check 0 0 10 10 "white" "t" 10 400
      "black" none "s" 10 400 "black" none "Open Sans" "bottom" "middle"
      "img.png" ⟨0, 0, 0, 0⟩ ⟨0, 0, 0, 0⟩ "red" 2
      (Or.inr (Or.inl rfl)) (Or.inr rfl) (by norm_num [circle_radius])⟩

/-! ## Grid layout engine: `lay_out_body` (lay_out_body.py, lines 71-437)

The keyword parameters of the Python function become the fields of
`LayOutBodyArgs`, with the same names and defaults.  `section_head_height`
defaults to `None` in Python and is only consumed under top orientation
(where `None` would make the `total_rows * element_height +
section_heads * section_head_height` arithmetic raise `TypeError`), so it
is an `Option Int`. -/

/-- The keyword arguments of `lay_out_body` (lines 71-101), with Python's
defaults. -/
structure LayOutBodyArgs where
  df_element : List ElementRow
  df_section : List SectionRow
  body_width : Int := 800
  draw_area_margin_dim : Margins := ⟨10, 10, 10, 10⟩
  font : String := "Open Sans"
  section_head_position : String := "top"
  section_head_width : Int := 100
  section_head_height : Option Int := none
  section_head_vertical_text_align : String := "top"
  section_head_text_size : Int := 20
  section_head_text_weight : Int := 600
  section_head_text_color : ColorSpec := .str "black"
  section_head_background_color : String := "white"
  section_head_padding_dim : Margins := ⟨5, 5, 5, 5⟩
  elements_per_row : Int := 5
  offset_rows : Bool := false
  element_height : ℚ := 50
  element_title_position : String := "bottom"
  element_title_text_size : Int := 10
  element_title_text_weight : Int := 400
  element_title_text_style : Option String := none
  element_subtitle_text_size : Int := 8
  element_subtitle_text_weight : Int := 400
  element_subtitle_text_style : Option String := none
  element_circle_stroke_width : Int := 2
  element_background_color : String := "white"
  element_margin_dim : Margins := ⟨2, 2, 2, 2⟩
  element_circle_padding_dim : Margins := ⟨2, 2, 2, 2⟩
  display_section_totals : Bool := false
  merge_sections : List String := []

/-- Lines 160-196: when `section_head_position == 'top'` and
`merge_sections` is non-empty, validate the merge (element-count overflow
first, then order) and adjust `total_rows` and `section_heads`; otherwise
leave them unchanged.  Both failures raise `ValueError` before any part
of the scene is created. -/
def mergeAdjust (a : LayOutBodyArgs) (total_rows section_heads : Int) :
    Except PyError (Int × Int) :=
  if a.section_head_position == "top" && !a.merge_sections.isEmpty then
    let filtered := a.df_section.filter (fun r => decide (r.sectionKey ∈ a.merge_sections))
    let merge_sections_elements := (filtered.map (·.elements)).sum
    if merge_sections_elements > a.elements_per_row then
      .error (.valueErrorMergeOverflow merge_sections_elements a.elements_per_row)
    else if filtered.map (·.sectionKey) ≠ a.merge_sections then
      .error .valueErrorMergeOrder
    else
      let merge_rows_initial := (filtered.map (·.rows)).sum
      let merge_rows_final := -((-merge_sections_elements).fdiv a.elements_per_row)
      .ok (total_rows - merge_rows_initial + merge_rows_final,
           section_heads - a.merge_sections.length + 1)
  else .ok (total_rows, section_heads)

/-- Lines 198-210: the draw-area `(width, height)`.  An unrecognised
`section_head_position` leaves `draw_area_dim` unassigned
(`UnboundLocalError` at line 212); top orientation with
`section_head_height = None` raises `TypeError` in the height arithmetic. -/
def drawAreaDim (a : LayOutBodyArgs) (total_rows section_heads : Int) :
    Except PyError (ℚ × ℚ) :=
  if a.section_head_position == "left" then
    .ok ((a.body_width : ℚ) - (a.draw_area_margin_dim.left : ℚ)
          - (a.draw_area_margin_dim.right : ℚ),
         (total_rows : ℚ) * a.element_height)
  else if a.section_head_position == "top" then
    match a.section_head_height with
    | none => .error .typeErrorNoneArith
    | some shh =>
      .ok ((a.body_width : ℚ) - (a.draw_area_margin_dim.left : ℚ)
            - (a.draw_area_margin_dim.right : ℚ),
           (total_rows : ℚ) * a.element_height + (section_heads : ℚ) * (shh : ℚ))
  else .error (.unboundLocalError "draw_area_dim")

/-- Lines 252-272: per-section head dimensions
`(left_section_head_dim, top_section_head_dim)`, each as `(width, height)`. -/
def sectionHeadDims (section_head_position : String) (section_head_width : Int)
    (section_head_height : Option Int) (element_height : ℚ) (daWidth : ℚ)
    (row : SectionRow) : Except PyError ((ℚ × ℚ) × (ℚ × ℚ)) :=
  if section_head_position == "left" then
    .ok (((section_head_width : ℚ), (row.rows : ℚ) * element_height), (0, 0))
  else if section_head_position == "top" then
    match section_head_height with
    | none => .error .typeErrorNoneArith
    | some shh => .ok ((0, 0), (daWidth, (shh : ℚ)))
  else .error (.unboundLocalError "left_section_head_dim")

/-- Lines 299-312: the section-head text anchor point; the if/elif chain
has no `else`, so an unrecognised alignment leaves `text_x` unassigned. -/
def headTextPos (section_head_vertical_text_align : String)
    (section_head_padding_dim : Margins) (section_head_text_size : Int)
    (x y shdHeight : ℚ) : Except PyError (ℚ × ℚ) :=
  if section_head_vertical_text_align == "top" then
    .ok (x + (section_head_padding_dim.left : ℚ),
         y + (section_head_padding_dim.top : ℚ) + (section_head_text_size : ℚ))
  else if section_head_vertical_text_align == "center" then
    .ok (x + (section_head_padding_dim.left : ℚ),
         y + (section_head_padding_dim.top : ℚ)
           + (shdHeight + (section_head_text_size : ℚ)) / 2
           - (section_head_padding_dim.bottom : ℚ))
  else if section_head_vertical_text_align == "bottom" then
    .ok (x + (section_head_padding_dim.left : ℚ),
         y + shdHeight - (section_head_padding_dim.bottom : ℚ))
  else .error (.unboundLocalError "text_x")

/-- Lines 314-321: the section-head text colour, with a `'black'`
fallback when the per-section dict has no entry for this section. -/
def resolveHeadTextColor : ColorSpec → String → String
  | .dict m, s => ((m.lookup s).getD "black")
  | .str c, _ => c

/-- Line 389: `section_head_text_color[element_row['section']]`, the
circle stroke colour for a card.  Unlike the head-text lookup this has no
fallback: a missing dict key raises `KeyError`, and a plain colour string
raises `TypeError` (a `str` cannot be indexed by a `str`). -/
def resolveStrokeColor : ColorSpec → String → Except PyError String
  | .str _, _ => .error .typeErrorStrIndices
  | .dict m, s =>
    match m.lookup s with
    | some c => .ok c
    | none => .error (.keyError s)

/-- Lines 367-392: the `draw_element(...)` call for one card.  Python
evaluates the keyword arguments first — so a failing stroke-colour lookup
raises — and then binds them against `draw_element`'s signature, which
always fails with `TypeError`: the call passes a `text_color` keyword
that `draw_element` does not accept (and omits its required
`title_text_color` / `subtitle_text_color` parameters). -/
def drawOneElement (color : ColorSpec) (e : ElementRow) : Except PyError SceneNode :=
  match resolveStrokeColor color e.sectionKey with
  | .error err => .error err
  | .ok _ => .error (.typeErrorUnexpectedKwarg "draw_element" "text_color")

/-- Lines 395-410: the Offset-mode pointer update after drawing the card
with running index `element_i`.  At a row boundary the y pointer drops by
one card height and the x pointer restarts flush at the section's `x`
(odd 0-based boundary index) or offset by half a card width (even index);
otherwise the x pointer advances by one card width. -/
def advanceOffset (element_totals : List Int) (x w h : ℚ) (p : ℚ × ℚ)
    (element_i : Int) : ℚ × ℚ :=
  if element_i ∈ element_totals then
    if (List.indexOf element_i element_totals) % 2 ≠ 0 then (x, p.2 + h)
    else (x + w / 2, p.2 + h)
  else (p.1 + w, p.2)

/-- Lines 412-417: the Regular-mode pointer update. -/
def advanceRegular (elements_per_row : Int) (x w h : ℚ) (p : ℚ × ℚ)
    (element_i : Int) : ℚ × ℚ :=
  if element_i % elements_per_row = 0 then (x, p.2 + h)
  else (p.1 + w, p.2)

/-- Lines 323-326: the section-head label, optionally with the section
total appended. -/
def headTextString (display_section_totals : Bool) (row : SectionRow) : String :=
  if display_section_totals then row.sectionKey ++ ": " ++ toString row.elements
  else row.sectionKey

/-- Lines 351-356: the boundary sequence is computed only when
`offset_rows` is set (and only consulted in that case). -/
def sectionElementTotals (offset_rows : Bool) (elements elements_per_row : Int) :
    List Int :=
  if offset_rows then calculate_offset_element_totals elements elements_per_row
  else []

/-- Lines 395-417: the pointer update after one card, selecting the
Offset or Regular rule. -/
def advanceElement (offset_rows : Bool) (element_totals : List Int)
    (elements_per_row : Int) (x w h : ℚ) (p : ℚ × ℚ) (element_i : Int) : ℚ × ℚ :=
  if offset_rows then advanceOffset element_totals x w h p element_i
  else advanceRegular elements_per_row x w h p element_i

/-- Lines 419-426: the y pointer after a section: past the section body,
rolled back by head and body heights when this section is merged (top
orientation only). -/
def nextSectionY (section_head_position : String) (merge_sections : List String)
    (row : SectionRow) (y thdH sbdH : ℚ) : ℚ :=
  if section_head_position == "top" && decide (row.sectionKey ∈ merge_sections) then
    y + sbdH - thdH - sbdH
  else y + sbdH

/-- Lines 428-432: the x pointer after a section: reset to 0, or advanced
past the cards just placed when this section is merged. -/
def nextSectionX (section_head_position : String) (merge_sections : List String)
    (row : SectionRow) (x : ℚ) (element_i : Int) (element_w : ℚ) : ℚ :=
  if !(section_head_position == "top" && decide (row.sectionKey ∈ merge_sections)) then
    (0 : ℚ)
  else x + (element_i : ℚ) * element_w

/-- Lines 358-417: the per-element loop of one section.  State is the
Python `(element_i, element_x, element_y)`; `x` is the section's left
edge after the left head, `w`/`h` the card slot dimensions. -/
def elementsLoop (color : ColorSpec) (offset_rows : Bool)
    (element_totals : List Int) (elements_per_row : Int) (x w h : ℚ) :
    List ElementRow → Int → ℚ → ℚ →
    Except PyError (List SceneNode × Int × ℚ × ℚ)
  | [], element_i, ex, ey => .ok ([], element_i, ex, ey)
  | e :: rest, element_i, ex, ey => do
    let node ← drawOneElement color e
    let p := advanceElement offset_rows element_totals elements_per_row x w h
      (ex, ey) (element_i + 1)
    let res ← elementsLoop color offset_rows element_totals elements_per_row
      x w h rest (element_i + 1) p.1 p.2
    return (node :: res.1, res.2)

/-- Lines 250-432: the per-section loop, threading the `(x, y)` pointers.
Produces the nodes appended to `draw_area` and the final pointers. -/
def sectionsLoop (a : LayOutBodyArgs) (daWidth : ℚ) :
    List SectionRow → ℚ → ℚ → Except PyError (List SceneNode × ℚ × ℚ)
  | [], x, y => .ok ([], x, y)
  | row :: rest, x, y => do
    let dims ← sectionHeadDims a.section_head_position a.section_head_width
      a.section_head_height a.element_height daWidth row
    let shd : ℚ × ℚ := (dims.1.1 + dims.2.1, dims.1.2 + dims.2.2)
    let sbd : ℚ × ℚ := (daWidth - dims.1.1, (row.rows : ℚ) * a.element_height)
    let element_w : ℚ := sbd.1 / (a.elements_per_row : ℚ)
    let headRect := SceneNode.rect x y (shd.1 - x) shd.2
      a.section_head_background_color (some 0)
    let tpos ← headTextPos a.section_head_vertical_text_align
      a.section_head_padding_dim a.section_head_text_size x y shd.2
    let headText := SceneNode.text (headTextString a.display_section_totals row)
      tpos.1 tpos.2 a.section_head_text_size a.section_head_text_weight a.font
      none (resolveHeadTextColor a.section_head_text_color row.sectionKey)
      "start" none
    let res ← elementsLoop a.section_head_text_color a.offset_rows
      (sectionElementTotals a.offset_rows row.elements a.elements_per_row)
      a.elements_per_row (x + dims.1.1) element_w a.element_height
      (a.df_element.filter (fun e => e.sectionKey == row.sectionKey))
      0 (x + dims.1.1) (y + dims.2.2)
    let out ← sectionsLoop a daWidth rest
      (nextSectionX a.section_head_position a.merge_sections row
        (x + dims.1.1) res.2.1 element_w)
      (nextSectionY a.section_head_position a.merge_sections row
        (y + dims.2.2) dims.2.2 sbd.2)
    return (headRect :: headText :: (res.1 ++ out.1), out.2)

/-- Embedding of `lay_out_body` (lines 71-437): merge validation and
total-row/head-count adjustment, draw-area and body dimensions, the page
background, the per-section walk, and the final `draw_area` group
translated by the outer margins. -/
def lay_out_body (a : LayOutBodyArgs) : Except PyError Drawing := do
  let tr_sh ← mergeAdjust a ((a.df_section.map (·.rows)).sum) a.df_section.length
  let daDim ← drawAreaDim a tr_sh.1 tr_sh.2
  let body_height := daDim.2 + (a.draw_area_margin_dim.top : ℚ)
    + (a.draw_area_margin_dim.bottom : ℚ)
  let out ← sectionsLoop a daDim.1 a.df_section 0 0
  return { width := a.body_width, height := body_height, font := a.font,
           children :=
             [ .rect 0 0 (a.body_width : ℚ) body_height "white" none,
               .group ((a.draw_area_margin_dim.left : ℚ),
                       (a.draw_area_margin_dim.top : ℚ)) out.1 ] }

/-! ### Inversion lemmas for `Except` binds -/

theorem exceptBind_eq_ok {ε α β : Type} {x : Except ε α} {f : α → Except ε β}
    {b : β} : (x >>= f) = .ok b ↔ ∃ a, x = .ok a ∧ f a = .ok b := by
  cases x with
  | error e =>
    constructor
    · intro h; exact absurd h (by simp [Bind.bind, Except.bind])
    · rintro ⟨a, ha, _⟩; exact absurd ha (by simp)
  | ok a =>
    constructor
    · intro h; exact ⟨a, rfl, h⟩
    · rintro ⟨a2, ha, hf⟩
      cases ha; exact hf

theorem exceptBind_error {ε α β : Type} (e : ε) (f : α → Except ε β) :
    ((Except.error e : Except ε α) >>= f) = .error e := rfl

theorem exceptBind_ok {ε α β : Type} (a : α) (f : α → Except ε β) :
    ((Except.ok a : Except ε α) >>= f) = f a := rfl

/-! ### The element loop always raises -/

theorem drawOneElement_error (color : ColorSpec) (e : ElementRow) :
    ∃ err, drawOneElement color e = .error err := by
  rw [drawOneElement]
  cases h : resolveStrokeColor color e.sectionKey
  · exact ⟨_, rfl⟩
  · exact ⟨_, rfl⟩

theorem elementsLoop_cons_error (color : ColorSpec) (offset_rows : Bool)
    (element_totals : List Int) (elements_per_row : Int) (x w h : ℚ)
    (e : ElementRow) (rest : List ElementRow) (element_i : Int) (ex ey : ℚ) :
    ∃ err, elementsLoop color offset_rows element_totals elements_per_row
      x w h (e :: rest) element_i ex ey = .error err := by
  obtain ⟨err, herr⟩ := drawOneElement_error color e
  refine ⟨err, ?_⟩
  rw [elementsLoop, herr]
  rfl

theorem sectionsLoop_ok_empty (a : LayOutBodyArgs) (daWidth : ℚ) :
    ∀ (rows : List SectionRow) (x y : ℚ)
      (out : List SceneNode × ℚ × ℚ),
      sectionsLoop a daWidth rows x y = .ok out →
      ∀ row ∈ rows,
        a.df_element.filter (fun e => e.sectionKey == row.sectionKey) = [] := by
  intro rows
  induction rows with
  | nil => intro x y out _ row hrow; simp at hrow
  | cons row rest ih =>
    intro x y out h r hr
    rw [sectionsLoop] at h
    simp only [exceptBind_eq_ok] at h
    obtain ⟨dims, _, tpos, _, res, helems, out2, hrest, _⟩ := h
    rcases List.mem_cons.mp hr with heq | hr
    · subst heq
      cases hfil : a.df_element.filter (fun e => e.sectionKey == r.sectionKey) with
      | nil => rfl
      | cons e es =>
        rw [hfil] at helems
        obtain ⟨err, herr⟩ := elementsLoop_cons_error
          a.section_head_text_color a.offset_rows
          (sectionElementTotals a.offset_rows r.elements a.elements_per_row)
          a.elements_per_row (x + dims.1.1)
          ((daWidth - dims.1.1) / (a.elements_per_row : ℚ)) a.element_height
          e es 0 (x + dims.1.1) (y + dims.2.2)
        rw [herr] at helems
        exact absurd helems (by simp)
    · exact ih _ _ _ hrest r hr

/-- Claim C1.  For every input in which at least one section has at least
one matching element (and a meaningful `elements_per_row ≥ 1`, under
which the Python loop machinery terminates), `lay_out_body` raises an
exception and never returns a scene: the `draw_element` call passes an
unrecognised `text_color` keyword and omits the required
`title_text_color`/`subtitle_text_color` parameters, so composing the
first card always raises `TypeError` — after the stroke-colour lookup
`section_head_text_color[section]` itself raises whenever the colour is a
plain string (`TypeError`) or the dict lacks the key (`KeyError`). -/
theorem lay_out_body_always_raises_with_elements (a : LayOutBodyArgs)
    (_hepr : 1 ≤ a.elements_per_row)
    (h : ∃ row ∈ a.df_section,
      a.df_element.filter (fun e => e.sectionKey == row.sectionKey) ≠ []) :
    (lay_out_body a).isOk = false := by
  cases h1 : mergeAdjust a ((a.df_section.map (·.rows)).sum) a.df_section.length with
  | error e => simp [lay_out_body, h1, exceptBind_error, Except.isOk, Except.toBool]
  | ok tr_sh =>
    cases h2 : drawAreaDim a tr_sh.1 tr_sh.2 with
    | error e =>
      simp [lay_out_body, h1, h2, exceptBind_ok, exceptBind_error, Except.isOk,
        Except.toBool]
    | ok daDim =>
      cases h3 : sectionsLoop a daDim.1 a.df_section 0 0 with
      | error e =>
        simp [lay_out_body, h1, h2, h3, exceptBind_ok, exceptBind_error,
          Except.isOk, Except.toBool]
      | ok out =>
        obtain ⟨row, hrow, hne⟩ := h
        exact absurd (sectionsLoop_ok_empty a daDim.1 a.df_section 0 0 out h3 row hrow)
          hne

/-- A one-card, one-section input under left orientation, used to
witness C1. -/
def oneCardArgs : LayOutBodyArgs :=
  { df_element := [⟨"A", "t", "s", "img"⟩],
    df_section := [⟨"A", 1, 1⟩],
    section_head_position := "left" }

/-- Witness for C1: a one-element, one-section input under left
orientation; the hypotheses hold and no scene is returned. -/
theorem lay_out_body_always_raises_with_elements_witness :
    (1 ≤ oneCardArgs.elements_per_row ∧
      ∃ row ∈ oneCardArgs.df_section,
        oneCardArgs.df_element.filter
          (fun e => e.sectionKey == row.sectionKey) ≠ []) ∧
    (lay_out_body oneCardArgs).isOk = false :=
  ⟨⟨by decide, by decide⟩,
    lay_out_body_always_raises_with_elements oneCardArgs (by decide) (by decide)⟩

/-! ### Merge handling -/

/-- Claim C4.  Under top orientation with a non-empty merge list,
`lay_out_body` fails before computing any geometry or scene node — the
result is an error value carrying no scene: `ValueError` reporting the
combined element count when it exceeds `elements_per_row` (checked
first), and an order `ValueError` when the filtered section list does
not equal `merge_sections` (which also covers merge names missing from
the data). -/
theorem lay_out_body_merge_validation_fail_fast (a : LayOutBodyArgs)
    (hpos : a.section_head_position = "top") (hms : a.merge_sections ≠ []) :
    ((((a.df_section.filter
          (fun r => decide (r.sectionKey ∈ a.merge_sections))).map
            (·.elements)).sum > a.elements_per_row →
        lay_out_body a = .error (.valueErrorMergeOverflow
          (((a.df_section.filter
            (fun r => decide (r.sectionKey ∈ a.merge_sections))).map
              (·.elements)).sum) a.elements_per_row)) ∧
      ((((a.df_section.filter
          (fun r => decide (r.sectionKey ∈ a.merge_sections))).map
            (·.elements)).sum ≤ a.elements_per_row) →
        (a.df_section.filter
          (fun r => decide (r.sectionKey ∈ a.merge_sections))).map
            (·.sectionKey) ≠ a.merge_sections →
        lay_out_body a = .error .valueErrorMergeOrder)) := by
  have hguard : (a.section_head_position == "top" && !a.merge_sections.isEmpty) = true := by
    rw [hpos]
    cases hm : a.merge_sections with
    | nil => exact absurd hm hms
    | cons b l => rfl
  constructor
  · intro hover
    have hmerge : mergeAdjust a ((a.df_section.map (·.rows)).sum)
        a.df_section.length = .error (.valueErrorMergeOverflow
          (((a.df_section.filter
            (fun r => decide (r.sectionKey ∈ a.merge_sections))).map
              (·.elements)).sum) a.elements_per_row) := by
      rw [mergeAdjust, if_pos hguard, if_pos hover]
    rw [lay_out_body, hmerge, exceptBind_error]
  · intro hle hne
    have hmerge : mergeAdjust a ((a.df_section.map (·.rows)).sum)
        a.df_section.length = .error .valueErrorMergeOrder := by
      rw [mergeAdjust, if_pos hguard, if_neg (not_lt.mpr hle), if_pos hne]
    rw [lay_out_body, hmerge, exceptBind_error]

/-- A top-orientation input whose two merged sections hold 3 + 3
elements against `elements_per_row = 5`, used to witness C4. -/
def mergeOverflowArgs : LayOutBodyArgs :=
  { df_element := [],
    df_section := [⟨"A", 3, 1⟩, ⟨"B", 3, 1⟩],
    section_head_height := some 35,
    merge_sections := ["A", "B"] }

/-- Witness for C4: two sections of 3 elements each with
`elements_per_row = 5` overflow the shared row (6 > 5) and produce the
overflow error. -/
theorem lay_out_body_merge_validation_fail_fast_witness :
    (mergeOverflowArgs.section_head_position = "top" ∧
      mergeOverflowArgs.merge_sections ≠ []) ∧
    lay_out_body mergeOverflowArgs = .error (.valueErrorMergeOverflow 6 5) :=
  ⟨⟨rfl, by decide⟩,
    (lay_out_body_merge_validation_fail_fast mergeOverflowArgs rfl
      (by decide)).1 (by decide)⟩

/-! ### Left orientation ignores the merge list -/

theorem nextSectionX_of_left (pos : String) (hpos : pos = "left")
    (ms : List String) (row : SectionRow) (x : ℚ) (i : Int) (w : ℚ) :
    nextSectionX pos ms row x i w = 0 := by
  subst hpos; rfl

theorem nextSectionY_of_left (pos : String) (hpos : pos = "left")
    (ms : List String) (row : SectionRow) (y thdH sbdH : ℚ) :
    nextSectionY pos ms row y thdH sbdH = y + sbdH := by
  subst hpos; rfl

theorem sectionsLoop_merge_irrelevant (a : LayOutBodyArgs) (ms : List String)
    (hpos : a.section_head_position = "left") (daWidth : ℚ) :
    ∀ (rows : List SectionRow) (x y : ℚ),
      sectionsLoop { a with merge_sections := ms } daWidth rows x y
        = sectionsLoop { a with merge_sections := [] } daWidth rows x y := by
  intro rows
  induction rows with
  | nil => intro x y; rfl
  | cons row rest ih =>
    intro x y
    simp only [sectionsLoop, nextSectionX_of_left _ hpos,
      nextSectionY_of_left _ hpos, ih]

/-- A left-orientation input with an (ignored) non-empty merge list,
used for C3. -/
def leftMergeArgs : LayOutBodyArgs :=
  { df_element := [],
    df_section := [⟨"A", 0, 0⟩],
    section_head_position := "left",
    merge_sections := ["A"] }

/-- Counterexample for C3.  The claim says a non-empty `merge_sections`
under left orientation raises a configuration error before producing
output, but on an empty-section input under left orientation with
`merge_sections = ["A"]` the code returns a scene and raises nothing. -/
theorem lay_out_body_left_merge_returns_scene :
    leftMergeArgs.section_head_position = "left" ∧
    leftMergeArgs.merge_sections ≠ [] ∧
    (lay_out_body leftMergeArgs).isOk = true :=
  ⟨rfl, by decide, rfl⟩

/-- Claim C3, amended: under left orientation a non-empty
`merge_sections` is silently ignored — no error is raised, and the
result is identical to the same call with an empty merge list (the merge
validation and the merge pointer adjustments are all guarded by
`section_head_position == 'top'`). -/
theorem mergeAdjust_not_top (a : LayOutBodyArgs)
    (h : (a.section_head_position == "top") = false) (tr sh : Int) :
    mergeAdjust a tr sh = .ok (tr, sh) := by
  rw [mergeAdjust, h]
  rfl

theorem drawAreaDim_merge_irrelevant (a : LayOutBodyArgs) (ms : List String)
    (tr sh : Int) :
    drawAreaDim { a with merge_sections := ms } tr sh = drawAreaDim a tr sh := rfl

theorem lay_out_body_left_ignores_merge_sections (a : LayOutBodyArgs)
    (hpos : a.section_head_position = "left") (ms : List String) :
    lay_out_body { a with merge_sections := ms }
      = lay_out_body { a with merge_sections := [] } := by
  have hbeq : (a.section_head_position == "top") = false := by
    rw [hpos]; rfl
  simp only [lay_out_body,
    mergeAdjust_not_top { a with merge_sections := ms } hbeq,
    mergeAdjust_not_top { a with merge_sections := [] } hbeq,
    exceptBind_ok, drawAreaDim_merge_irrelevant,
    sectionsLoop_merge_irrelevant a ms hpos]

/-- Witness for C3 (amended): with a one-section left-orientation layout,
supplying `merge_sections = ["A"]` gives the same drawing as supplying
none. -/
theorem lay_out_body_left_ignores_merge_sections_witness :
    leftMergeArgs.section_head_position = "left" ∧
    lay_out_body { leftMergeArgs with merge_sections := ["A"] }
      = lay_out_body { leftMergeArgs with merge_sections := [] } :=
  ⟨rfl, lay_out_body_left_ignores_merge_sections leftMergeArgs rfl ["A"]⟩

/-! ### Offset-mode card placement walk -/

/-- The position of the `k+1`-st card of a section in Offset mode:
card 1 sits at the section pointer `(x, y)` and each subsequent position
is obtained by the pointer update of lines 395-410 with the running index
`element_i = k`. -/
def offsetCardPos (element_totals : List Int) (x y w h : ℚ) : Nat → ℚ × ℚ
  | 0 => (x, y)
  | k + 1 => advanceOffset element_totals x w h
      (offsetCardPos element_totals x y w h k) ((k : Int) + 1)

/-- Claim C7.  In Offset mode the x pointer advances by one card width
except when the running card index is a term of the boundary sequence;
at a boundary the y pointer advances by one card height and the next row
starts flush at the section's left `x` when the boundary's 0-based index
in the sequence is odd, and offset by half a card width when that index
is even. -/
theorem offset_card_advance_spec (element_totals : List Int)
    (x y w h : ℚ) (k : Nat) :
    (((k : Int) + 1) ∉ element_totals →
      offsetCardPos element_totals x y w h (k + 1)
        = ((offsetCardPos element_totals x y w h k).1 + w,
           (offsetCardPos element_totals x y w h k).2)) ∧
    (((k : Int) + 1) ∈ element_totals →
      (offsetCardPos element_totals x y w h (k + 1)).2
          = (offsetCardPos element_totals x y w h k).2 + h ∧
        ((List.indexOf ((k : Int) + 1) element_totals) % 2 = 1 →
          (offsetCardPos element_totals x y w h (k + 1)).1 = x) ∧
        ((List.indexOf ((k : Int) + 1) element_totals) % 2 = 0 →
          (offsetCardPos element_totals x y w h (k + 1)).1 = x + w / 2)) := by
  constructor
  · intro hmem
    rw [offsetCardPos, advanceOffset, if_neg hmem]
  · intro hmem
    rw [offsetCardPos, advanceOffset, if_pos hmem]
    by_cases hp : (List.indexOf ((k : Int) + 1) element_totals) % 2 ≠ 0
    · rw [if_pos hp]
      exact ⟨rfl, fun _ => rfl, fun h0 => absurd h0 hp⟩
    · rw [if_neg hp]
      exact ⟨rfl, fun h1 => absurd h1 (by omega), fun _ => rfl⟩

/-- Witness for C7: with boundary sequence `[5, 9]`, card 6 (after the
5th card, boundary index 0, even) starts the next row offset by half a
card width and one row down; card 8 follows card 7 by one card width on
the same row. -/
theorem offset_card_advance_spec_witness :
    ((5 : Int) ∈ [(5 : Int), 9] ∧
      (offsetCardPos [5, 9] 0 0 2 3 5).2 = (offsetCardPos [5, 9] 0 0 2 3 4).2 + 3 ∧
      (offsetCardPos [5, 9] 0 0 2 3 5).1 = 0 + 2 / 2) ∧
    ((7 : Int) ∉ [(5 : Int), 9] ∧
      offsetCardPos [5, 9] 0 0 2 3 7
        = ((offsetCardPos [5, 9] 0 0 2 3 6).1 + 2,
           (offsetCardPos [5, 9] 0 0 2 3 6).2)) :=
  ⟨⟨by decide,
      ((offset_card_advance_spec [5, 9] 0 0 2 3 4).2 (by decide)).1,
      ((offset_card_advance_spec [5, 9] 0 0 2 3 4).2 (by decide)).2.2 (by decide)⟩,
    ⟨by decide, (offset_card_advance_spec [5, 9] 0 0 2 3 6).1 (by decide)⟩⟩

/-! ## Grouper: `format_graphic_data` (format_graphic_data.py, lines 52-186)

The input table is a list of `DataRow` (the four semantic columns already
selected; a missing section key is `none`).  `section_sort_by` is the
`Union[Literal['section','elements'], list]` parameter; `pandas`
peculiarities are modelled where observable: `groupby` sorts its keys
lexicographically, `unique()` keeps first appearances,
`pd.Categorical` rejects duplicate category lists, and the final element
sort key is `(section rank, original row index)`. -/

/-- A row of the caller's table: section key (possibly missing), title,
subtitle and image path columns. -/
structure DataRow where
  sectionKey : Option String
  title : String
  subtitle : String
  image : String
deriving DecidableEq, Repr

/-- The `section_sort_by` parameter. -/
inductive SectionSortBy where
  | bySection
  | byElements
  | byList (l : List String)
deriving DecidableEq, Repr

/-- The `section_sort_order` parameter (`None` is `Option.none`). -/
inductive SortOrder where
  | ascending
  | descending
deriving DecidableEq, Repr

/-- Errors raised by `format_graphic_data`: the missing-value check
(line 96), the two explicit-list mismatch `ValueError`s (lines 99-114,
each carrying the offending keys of its own direction only), and the
`pandas.Categorical` duplicate-categories error (line 151). -/
inductive FormatError where
  | missingValues
  | sortByNotInData (missing : List String)
  | dataNotInSortBy (missing : List String)
  | duplicateCategories
deriving DecidableEq, Repr

/-- Lines 117-129: select and rename the four columns.  The section key
is known to be present when this is reached (line 96 raised otherwise). -/
def toElementRow (r : DataRow) : ElementRow :=
  ⟨r.sectionKey.getD "", r.title, r.subtitle, r.image⟩

/-- `pandas` `unique()`: distinct values in order of first appearance. -/
def uniqueFirstAux (seen : List String) : List String → List String
  | [] => []
  | a :: l =>
    if a ∈ seen then uniqueFirstAux seen l
    else a :: uniqueFirstAux (a :: seen) l

/-- Distinct values of a list, keeping first appearances. -/
def uniqueFirst (l : List String) : List String := uniqueFirstAux [] l

/-- `reset_index()`: attach the original row index to each row. -/
def indexList : List ElementRow → Nat → List (Nat × ElementRow)
  | [], _ => []
  | a :: l, n => (n, a) :: indexList l (n + 1)

/-- The categorical rank of a section name in the ordered category list
(its position; `pandas` sorts a categorical column by this rank). -/
def sectionRank (categories : List String) (s : String) : Nat :=
  List.indexOf s categories

/-- The sort key of the final element sort (lines 181-184): by section
rank, then by original row index. -/
def elemLe (categories : List String) (a b : Nat × ElementRow) : Prop :=
  sectionRank categories a.2.sectionKey < sectionRank categories b.2.sectionKey ∨
    (sectionRank categories a.2.sectionKey = sectionRank categories b.2.sectionKey ∧
      a.1 ≤ b.1)

instance elemLe_decidable (categories : List String) :
    DecidableRel (elemLe categories) := fun a b => by
  unfold elemLe; infer_instance

instance elemLe_total (categories : List String) :
    IsTotal (Nat × ElementRow) (elemLe categories) := by
  refine ⟨fun a b => ?_⟩
  unfold elemLe
  omega

instance elemLe_trans (categories : List String) :
    IsTrans (Nat × ElementRow) (elemLe categories) := by
  refine ⟨fun a b c h1 h2 => ?_⟩
  unfold elemLe at *
  omega

/-- Lines 134-138: `groupby('section').size()` — the distinct section
keys in `groupby`'s lexicographic key order, each with its row count.
(`pandas` sorts group keys; a stable structural sort models it.) -/
def groupPairs (df_element : List ElementRow) : List (String × Int) :=
  (List.insertionSort (· ≤ ·) (uniqueFirst (df_element.map (·.sectionKey)))).map
    (fun s => (s, (df_element.countP (fun r => r.sectionKey == s) : Int)))

/-- Lines 140-161: sort the section frame.  For `'section'`/`'elements'`
this is `sort_values` by the key with the requested direction
(`ascending` iff `section_sort_order == 'ascending'`); for an explicit
list the section column becomes an ordered categorical — which requires
the categories to be unique (`pandas` raises otherwise) — and is sorted
by rank. -/
def sortSectionPairs (section_sort_by : SectionSortBy)
    (section_sort_order : Option SortOrder) (ps : List (String × Int)) :
    Except FormatError (List (String × Int)) :=
  match section_sort_by with
  | .bySection =>
    .ok (if section_sort_order == some .ascending then
        List.insertionSort (fun a b => a.1 ≤ b.1) ps
      else List.insertionSort (fun a b => b.1 ≤ a.1) ps)
  | .byElements =>
    .ok (if section_sort_order == some .ascending then
        List.insertionSort (fun a b => a.2 ≤ b.2) ps
      else List.insertionSort (fun a b => b.2 ≤ a.2) ps)
  | .byList l =>
    if l.Nodup then
      .ok (List.insertionSort
        (fun a b => List.indexOf a.1 l ≤ List.indexOf b.1 l) ps)
    else .error .duplicateCategories

/-- Lines 163-169: the `rows` column of one section row. -/
def mkSectionRow (offset_rows : Bool) (elements_per_row : Int)
    (p : String × Int) : SectionRow :=
  ⟨p.1, p.2,
    if offset_rows then calculate_offset_rows p.2 elements_per_row
    else regular_rows p.2 elements_per_row⟩

/-- Lines 117-186 after the validity checks: build `df_element`, group
and sort the section frame, add the `rows` column, and sort the elements
by `(section rank, original index)`. -/
def formatTail (df : List DataRow) (elements_per_row : Int)
    (offset_rows : Bool) (section_sort_by : SectionSortBy)
    (section_sort_order : Option SortOrder) :
    Except FormatError (List ElementRow × List SectionRow) := do
  let df_element := df.map toElementRow
  let pairs ← sortSectionPairs section_sort_by section_sort_order
    (groupPairs df_element)
  let df_section := pairs.map (mkSectionRow offset_rows elements_per_row)
  return ((List.insertionSort (elemLe (df_section.map (·.sectionKey)))
      (indexList df_element 0)).map (·.2), df_section)

/-- Embedding of `format_graphic_data` (lines 52-186): the missing-value
check, then (for an explicit order list) the two directional membership
checks — policy entries absent from the data first (raising with that
set only), then data keys absent from the policy (raising with that set
only) — and finally the grouping/sorting pipeline. -/
def format_graphic_data (df : List DataRow) (elements_per_row : Int)
    (offset_rows : Bool := false)
    (section_sort_by : SectionSortBy := .byElements)
    (section_sort_order : Option SortOrder := none) :
    Except FormatError (List ElementRow × List SectionRow) :=
  if df.any (fun r => r.sectionKey.isNone) then .error .missingValues
  else
    match section_sort_by with
    | .byList l =>
      if l.all (fun x => decide (x ∈ uniqueFirst (df.filterMap (·.sectionKey)))) then
        if (uniqueFirst (df.filterMap (·.sectionKey))).all
            (fun x => decide (x ∈ l)) then
          formatTail df elements_per_row offset_rows (.byList l) section_sort_order
        else
          .error (.dataNotInSortBy ((uniqueFirst (df.filterMap (·.sectionKey))).filter
            (fun x => decide (x ∉ l))))
      else
        .error (.sortByNotInData (l.filter
          (fun x => decide (x ∉ uniqueFirst (df.filterMap (·.sectionKey))))))
    | ssb => formatTail df elements_per_row offset_rows ssb section_sort_order

/-! ### Facts about `uniqueFirst` -/

theorem mem_uniqueFirstAux (x : String) :
    ∀ (l seen : List String),
      x ∈ uniqueFirstAux seen l ↔ x ∈ l ∧ x ∉ seen := by
  intro l
  induction l with
  | nil => intro seen; simp [uniqueFirstAux]
  | cons a l ih =>
    intro seen
    rw [uniqueFirstAux]
    by_cases h : a ∈ seen
    · rw [if_pos h, ih]
      constructor
      · rintro ⟨hx, hs⟩; exact ⟨List.mem_cons_of_mem _ hx, hs⟩
      · rintro ⟨hx, hs⟩
        rcases List.mem_cons.mp hx with rfl | hx
        · exact absurd h hs
        · exact ⟨hx, hs⟩
    · rw [if_neg h]
      constructor
      · intro hx
        rcases List.mem_cons.mp hx with rfl | hx
        · exact ⟨List.mem_cons_self _ _, h⟩
        · have h2 := (ih (a :: seen)).mp hx
          exact ⟨List.mem_cons_of_mem _ h2.1,
            fun hs => h2.2 (List.mem_cons_of_mem _ hs)⟩
      · rintro ⟨hx, hs⟩
        rcases List.mem_cons.mp hx with rfl | hx
        · exact List.mem_cons_self _ _
        · by_cases hxa : x = a
          · subst hxa; exact List.mem_cons_self _ _
          · refine List.mem_cons_of_mem _ ((ih (a :: seen)).mpr ⟨hx, ?_⟩)
            intro hm
            exact (List.mem_cons.mp hm).elim hxa hs

theorem mem_uniqueFirst (x : String) (l : List String) :
    x ∈ uniqueFirst l ↔ x ∈ l := by
  rw [uniqueFirst, mem_uniqueFirstAux]
  simp

theorem nodup_uniqueFirstAux :
    ∀ (l seen : List String), (uniqueFirstAux seen l).Nodup := by
  intro l
  induction l with
  | nil => intro seen; simp [uniqueFirstAux]
  | cons a l ih =>
    intro seen
    rw [uniqueFirstAux]
    by_cases h : a ∈ seen
    · rw [if_pos h]; exact ih seen
    · rw [if_neg h]
      refine List.Nodup.cons ?_ (ih (a :: seen))
      intro hmem
      exact ((mem_uniqueFirstAux a l (a :: seen)).mp hmem).2 (List.mem_cons_self _ _)

theorem nodup_uniqueFirst (l : List String) : (uniqueFirst l).Nodup :=
  nodup_uniqueFirstAux l []

/-! ### Success/failure of the explicit-order checks -/

theorem formatTail_byList_ok_iff (df : List DataRow) (epr : Int) (off : Bool)
    (l : List String) (sso : Option SortOrder) :
    (formatTail df epr off (.byList l) sso).isOk = true ↔ l.Nodup := by
  rw [formatTail]
  by_cases h : l.Nodup
  · simp [sortSectionPairs, h, Except.isOk, Except.toBool, exceptBind_ok,
      pure, Except.pure]
  · simp [sortSectionPairs, h, Except.isOk, Except.toBool, exceptBind_error]

theorem format_ok_inv {df : List DataRow} {epr : Int} {off : Bool}
    {ssb : SectionSortBy} {sso : Option SortOrder}
    {eo : List ElementRow} {so : List SectionRow}
    (h : format_graphic_data df epr off ssb sso = .ok (eo, so)) :
    formatTail df epr off ssb sso = .ok (eo, so) := by
  by_cases hmiss : df.any (fun r => r.sectionKey.isNone) = true
  · cases ssb <;> simp [format_graphic_data, hmiss] at h
  · have hmiss' : df.any (fun r => r.sectionKey.isNone) = false :=
      Bool.eq_false_iff.mpr hmiss
    cases ssb with
    | bySection => simpa [format_graphic_data, hmiss'] using h
    | byElements => simpa [format_graphic_data, hmiss'] using h
    | byList l =>
      simp only [format_graphic_data, hmiss', Bool.false_eq_true, if_false] at h
      split at h
      · split at h
        · exact h
        · exact absurd h (by simp)
      · exact absurd h (by simp)

/-- Counterexample for C9.  With data sections `{"A"}` and explicit order
list `["B"]` there is a mismatch in both directions, but the raised error
enumerates only the missing-from-data set `["B"]` — the
missing-from-policy key `"A"` is absent from the error. -/
theorem format_graphic_data_mismatch_error_single_direction :
    format_graphic_data [⟨some "A", "t", "s", "i"⟩] 5 false (.byList ["B"]) none
      = .error (.sortByNotInData ["B"]) ∧
    "A" ∈ uniqueFirst (([⟨some "A", "t", "s", "i"⟩] : List DataRow).filterMap
      (·.sectionKey)) ∧
    "A" ∉ (["B"] : List String) :=
  ⟨rfl, by decide, by decide⟩

/-- Claim C9, amended: with an explicit order list, grouping succeeds
only if the list and the distinct section keys are a bijection (same
sets, no duplicate list entries, no missing section values); any
mismatch is a hard error, but each error's message enumerates only its
own direction's set: policy entries absent from the data are checked
first and reported alone, then data keys absent from the policy are
reported alone — never both sets in one message. -/
theorem format_graphic_data_explicit_order_bijection :
    (∀ (df : List DataRow) (epr : Int) (off : Bool) (l : List String)
       (sso : Option SortOrder) (eo : List ElementRow) (so : List SectionRow),
      format_graphic_data df epr off (.byList l) sso = .ok (eo, so) →
        (df.any (fun r => r.sectionKey.isNone) = false ∧
         (∀ x ∈ l, x ∈ uniqueFirst (df.filterMap (·.sectionKey))) ∧
         (∀ x ∈ uniqueFirst (df.filterMap (·.sectionKey)), x ∈ l) ∧
         l.Nodup)) ∧
    (∀ (df : List DataRow) (epr : Int) (off : Bool) (l : List String)
       (sso : Option SortOrder),
      df.any (fun r => r.sectionKey.isNone) = false →
      l.filter (fun x => decide (x ∉ uniqueFirst (df.filterMap (·.sectionKey))))
        ≠ [] →
      format_graphic_data df epr off (.byList l) sso
        = .error (.sortByNotInData (l.filter
            (fun x => decide (x ∉ uniqueFirst (df.filterMap (·.sectionKey))))))) ∧
    (∀ (df : List DataRow) (epr : Int) (off : Bool) (l : List String)
       (sso : Option SortOrder),
      df.any (fun r => r.sectionKey.isNone) = false →
      (∀ x ∈ l, x ∈ uniqueFirst (df.filterMap (·.sectionKey))) →
      (uniqueFirst (df.filterMap (·.sectionKey))).filter
        (fun x => decide (x ∉ l)) ≠ [] →
      format_graphic_data df epr off (.byList l) sso
        = .error (.dataNotInSortBy ((uniqueFirst (df.filterMap (·.sectionKey))).filter
            (fun x => decide (x ∉ l))))) := by
  refine ⟨?_, ?_, ?_⟩
  · intro df epr off l sso eo so h
    have hTail := format_ok_inv h
    have hok : (formatTail df epr off (.byList l) sso).isOk = true := by
      rw [hTail]; rfl
    have hnodup := (formatTail_byList_ok_iff df epr off l sso).mp hok
    by_cases hmiss : df.any (fun r => r.sectionKey.isNone) = true
    · simp [format_graphic_data, hmiss] at h
    · have hmiss' : df.any (fun r => r.sectionKey.isNone) = false :=
        Bool.eq_false_iff.mpr hmiss
      by_cases h1 : l.all
          (fun x => decide (x ∈ uniqueFirst (df.filterMap (·.sectionKey)))) = true
      · by_cases h2 : (uniqueFirst (df.filterMap (·.sectionKey))).all
            (fun x => decide (x ∈ l)) = true
        · refine ⟨hmiss', ?_, ?_, hnodup⟩
          · rw [List.all_eq_true] at h1
            intro x hx
            simpa using h1 x hx
          · rw [List.all_eq_true] at h2
            intro x hx
            simpa using h2 x hx
        · have h2' := Bool.eq_false_iff.mpr h2
          simp [format_graphic_data, hmiss', h1, h2'] at h
      · have h1' := Bool.eq_false_iff.mpr h1
        simp [format_graphic_data, hmiss', h1'] at h
  · intro df epr off l sso hmiss hfil
    have h1 : l.all
        (fun x => decide (x ∈ uniqueFirst (df.filterMap (·.sectionKey)))) = false := by
      obtain ⟨x, hxmem⟩ := List.exists_mem_of_ne_nil _ hfil
      have hx := List.mem_filter.mp hxmem
      rw [Bool.eq_false_iff]
      intro hall
      rw [List.all_eq_true] at hall
      have hmem := hall x hx.1
      simp only [decide_eq_true_eq] at hmem
      exact absurd hmem (by simpa using hx.2)
    simp [format_graphic_data, hmiss, h1]
  · intro df epr off l sso hmiss hall hfil
    have h1 : l.all
        (fun x => decide (x ∈ uniqueFirst (df.filterMap (·.sectionKey)))) = true := by
      rw [List.all_eq_true]
      intro x hx
      simpa using hall x hx
    have h2 : (uniqueFirst (df.filterMap (·.sectionKey))).all
        (fun x => decide (x ∈ l)) = false := by
      obtain ⟨x, hxmem⟩ := List.exists_mem_of_ne_nil _ hfil
      have hx := List.mem_filter.mp hxmem
      rw [Bool.eq_false_iff]
      intro hall2
      rw [List.all_eq_true] at hall2
      have hmem := hall2 x hx.1
      simp only [decide_eq_true_eq] at hmem
      exact absurd hmem (by simpa using hx.2)
    simp [format_graphic_data, hmiss, h1, h2]

/-- Witness for C9 (amended): a successful run on data sections `{"A"}`
with order list `["A"]` satisfies the bijection conditions, and with
order list `["B"]` the first-direction error fires with payload `["B"]`. -/
theorem format_graphic_data_explicit_order_bijection_witness :
    (format_graphic_data [⟨some "A", "t", "s", "i"⟩] 5 false (.byList ["A"]) none
        = .ok ([⟨"A", "t", "s", "i"⟩], [⟨"A", 1, 1⟩]) ∧
      (([⟨some "A", "t", "s", "i"⟩] : List DataRow).any
          (fun r => r.sectionKey.isNone) = false ∧
        (∀ x ∈ (["A"] : List String), x ∈ uniqueFirst
          (([⟨some "A", "t", "s", "i"⟩] : List DataRow).filterMap
            (·.sectionKey))) ∧
        (∀ x ∈ uniqueFirst
            (([⟨some "A", "t", "s", "i"⟩] : List DataRow).filterMap
              (·.sectionKey)), x ∈ (["A"] : List String)) ∧
        (["A"] : List String).Nodup)) ∧
    ((([⟨some "A", "t", "s", "i"⟩] : List DataRow).any
        (fun r => r.sectionKey.isNone) = false ∧
      (["B"].filter (fun x => decide (x ∉ uniqueFirst
        (([⟨some "A", "t", "s", "i"⟩] : List DataRow).filterMap
          (·.sectionKey))))) ≠ []) ∧
    format_graphic_data [⟨some "A", "t", "s", "i"⟩] 5 false (.byList ["B"]) none
      = .error (.sortByNotInData (["B"].filter (fun x => decide (x ∉ uniqueFirst
          (([⟨some "A", "t", "s", "i"⟩] : List DataRow).filterMap
            (·.sectionKey))))))) :=
  ⟨⟨rfl,
     format_graphic_data_explicit_order_bijection.1
       [⟨some "A", "t", "s", "i"⟩] 5 false ["A"] none
       [⟨"A", "t", "s", "i"⟩] [⟨"A", 1, 1⟩] rfl⟩,
   ⟨by decide, by decide⟩,
    format_graphic_data_explicit_order_bijection.2.1
      [⟨some "A", "t", "s", "i"⟩] 5 false ["B"] none (by decide) (by decide)⟩

/-! ### Facts about `indexList` and generic sorting helpers -/

theorem indexList_map_snd : ∀ (l : List ElementRow) (n : Nat),
    (indexList l n).map (·.2) = l := by
  intro l
  induction l with
  | nil => intro n; rfl
  | cons a l ih => intro n; simp [indexList, ih]

theorem indexList_fst_ge : ∀ (l : List ElementRow) (n : Nat),
    ∀ p ∈ indexList l n, n ≤ p.1 := by
  intro l
  induction l with
  | nil => intro n p hp; simp [indexList] at hp
  | cons a l ih =>
    intro n p hp
    rw [indexList] at hp
    rcases List.mem_cons.mp hp with rfl | hp
    · exact le_refl n
    · exact le_trans (Nat.le_succ n) (ih (n + 1) p hp)

theorem indexList_pairwise : ∀ (l : List ElementRow) (n : Nat),
    (indexList l n).Pairwise (fun a b => a.1 < b.1) := by
  intro l
  induction l with
  | nil => intro n; simp [indexList]
  | cons a l ih =>
    intro n
    rw [indexList]
    refine List.Pairwise.cons ?_ (ih (n + 1))
    intro p hp
    exact lt_of_lt_of_le (Nat.lt_succ_self n) (indexList_fst_ge l (n + 1) p hp)

/-- Two permuted lists that are both pairwise-related by an asymmetric
relation are equal. -/
theorem eq_of_perm_of_pairwise {α : Type} {r : α → α → Prop}
    (hasymm : ∀ a b, r a b → r b a → False) :
    ∀ (l₁ l₂ : List α), l₁.Perm l₂ → l₁.Pairwise r → l₂.Pairwise r → l₁ = l₂ := by
  intro l₁
  induction l₁ with
  | nil => intro l₂ hp _ _; exact (List.nil_perm.mp hp).symm
  | cons a t ih =>
    intro l₂ hp h1 h2
    cases l₂ with
    | nil => exact absurd hp (by simp)
    | cons b t₂ =>
      by_cases hab : a = b
      · subst hab
        rw [ih t₂ hp.cons_inv h1.of_cons h2.of_cons]
      · have ha : a ∈ b :: t₂ := hp.subset (List.mem_cons_self a t)
        have hat₂ : a ∈ t₂ := (List.mem_cons.mp ha).resolve_left hab
        have hba : r b a := (List.pairwise_cons.mp h2).1 a hat₂
        have hb : b ∈ a :: t := hp.symm.subset (List.mem_cons_self b t₂)
        have hbt : b ∈ t := (List.mem_cons.mp hb).resolve_left fun h => hab h.symm
        have hab' : r a b := (List.pairwise_cons.mp h1).1 b hbt
        exact absurd hab' fun h => hasymm a b h hba

/-! ### The sorted element list: permutation, order, per-section slices -/

theorem sortedElems_perm (prep : List ElementRow) (cat : List String) :
    ((List.insertionSort (elemLe cat) (indexList prep 0)).map (·.2)).Perm prep := by
  have h := (List.perm_insertionSort (elemLe cat) (indexList prep 0)).map (·.2)
  rwa [indexList_map_snd] at h

theorem sortedElems_pairwise (prep : List ElementRow) (cat : List String) :
    ((List.insertionSort (elemLe cat) (indexList prep 0)).map (·.2)).Pairwise
      (fun a b => sectionRank cat a.sectionKey ≤ sectionRank cat b.sectionKey) := by
  have hs := List.sorted_insertionSort (elemLe cat) (indexList prep 0)
  refine List.pairwise_map.mpr (hs.imp ?_)
  intro a b h
  unfold elemLe at h
  omega

theorem sortedElems_filter (prep : List ElementRow) (cat : List String)
    (s : String) :
    ((List.insertionSort (elemLe cat) (indexList prep 0)).map (·.2)).filter
        (fun r => r.sectionKey == s)
      = prep.filter (fun r => r.sectionKey == s) := by
  have e1 := List.filter_map (p := fun r : ElementRow => r.sectionKey == s)
    (fun p : Nat × ElementRow => p.2)
    (List.insertionSort (elemLe cat) (indexList prep 0))
  have e2 := List.filter_map (p := fun r : ElementRow => r.sectionKey == s)
    (fun p : Nat × ElementRow => p.2) (indexList prep 0)
  rw [indexList_map_snd] at e2
  rw [e1, e2]
  congr 1
  have hperm := (List.perm_insertionSort (elemLe cat) (indexList prep 0)).filter
    ((fun r : ElementRow => r.sectionKey == s) ∘ (fun p : Nat × ElementRow => p.2))
  have hLfst : (indexList prep 0).Pairwise (fun a b => a.1 ≠ b.1) :=
    (indexList_pairwise prep 0).imp fun h => Nat.ne_of_lt h
  have hMfst : (List.insertionSort (elemLe cat) (indexList prep 0)).Pairwise
      (fun a b => a.1 ≠ b.1) := by
    have hnodL : ((indexList prep 0).map (·.1)).Nodup :=
      List.pairwise_map.mpr hLfst
    have hnodM : ((List.insertionSort (elemLe cat) (indexList prep 0)).map
        (·.1)).Nodup :=
      (((List.perm_insertionSort (elemLe cat) (indexList prep 0)).map
        (·.1)).nodup_iff).mpr hnodL
    exact List.pairwise_map.mp hnodM
  have hsorted := List.sorted_insertionSort (elemLe cat) (indexList prep 0)
  refine eq_of_perm_of_pairwise
    (r := fun a b : Nat × ElementRow => a.1 < b.1)
    (fun a b h1 h2 => absurd h2 (Nat.lt_asymm h1)) _ _ hperm ?_ ?_
  · refine ((hsorted.and hMfst).filter _).imp_of_mem ?_
    intro a b ha hb hr
    have hqa : a.2.sectionKey = s := by
      have := (List.mem_filter.mp ha).2
      simpa using eq_of_beq (by simpa using this)
    have hqb : b.2.sectionKey = s := by
      have := (List.mem_filter.mp hb).2
      simpa using eq_of_beq (by simpa using this)
    obtain ⟨hle, hne⟩ := hr
    unfold elemLe at hle
    rw [hqa, hqb] at hle
    omega
  · exact (indexList_pairwise prep 0).filter _

/-! ### Invariance of the section frame under row permutation -/

theorem groupPairs_perm_eq {l₁ l₂ : List ElementRow} (hp : l₁.Perm l₂) :
    groupPairs l₁ = groupPairs l₂ := by
  have hmem : ∀ x : String,
      x ∈ uniqueFirst (l₁.map (·.sectionKey)) ↔
        x ∈ uniqueFirst (l₂.map (·.sectionKey)) := by
    intro x
    rw [mem_uniqueFirst, mem_uniqueFirst]
    exact (hp.map (·.sectionKey)).mem_iff
  have hperm : (uniqueFirst (l₁.map (·.sectionKey))).Perm
      (uniqueFirst (l₂.map (·.sectionKey))) :=
    (List.perm_ext_iff_of_nodup (nodup_uniqueFirst _) (nodup_uniqueFirst _)).mpr hmem
  have hkeys : List.insertionSort (· ≤ ·) (uniqueFirst (l₁.map (·.sectionKey)))
      = List.insertionSort (· ≤ ·) (uniqueFirst (l₂.map (·.sectionKey))) := by
    haveI : IsAntisymm String (· ≤ ·) := ⟨fun a b h1 h2 => le_antisymm h1 h2⟩
    refine List.eq_of_perm_of_sorted
      (r := fun a b : String => a ≤ b)
      (((List.perm_insertionSort _ _).trans hperm).trans
        (List.perm_insertionSort _ _).symm) ?_ ?_
    · exact List.sorted_insertionSort _ _
    · exact List.sorted_insertionSort _ _
  rw [groupPairs, groupPairs, hkeys]
  refine List.map_congr_left ?_
  intro s _
  rw [hp.countP_eq]

/-! ### Inversion of a successful `format_graphic_data` run -/

theorem formatTail_ok_inv {df : List DataRow} {epr : Int} {off : Bool}
    {ssb : SectionSortBy} {sso : Option SortOrder}
    {eo : List ElementRow} {so : List SectionRow}
    (h : formatTail df epr off ssb sso = .ok (eo, so)) :
    ∃ pairs, sortSectionPairs ssb sso (groupPairs (df.map toElementRow)) = .ok pairs ∧
      so = pairs.map (mkSectionRow off epr) ∧
      eo = (List.insertionSort (elemLe (so.map (·.sectionKey)))
        (indexList (df.map toElementRow) 0)).map (·.2) := by
  rw [formatTail] at h
  simp only [exceptBind_eq_ok] at h
  obtain ⟨pairs, hpairs, hpure⟩ := h
  simp only [pure, Except.pure, Except.ok.injEq, Prod.mk.injEq] at hpure
  obtain ⟨heo, hso⟩ := hpure
  refine ⟨pairs, hpairs, hso.symm, ?_⟩
  rw [hso] at heo
  exact heo.symm

/-- The first of two single-section tables that differ only in row
order, used for the C8 counterexample. -/
def shuffleDfA : List DataRow :=
  [⟨some "A", "x", "", ""⟩, ⟨some "A", "y", "", ""⟩]

/-- The same two rows in the opposite order. -/
def shuffleDfB : List DataRow :=
  [⟨some "A", "y", "", ""⟩, ⟨some "A", "x", "", ""⟩]

/-- Counterexample for C8.  Shuffling the input rows keeps the section
frame identical but changes the element ordering within the section:
grouping is keyed on the original row index of the table it is given, so
it is not invariant under shuffling the input row order. -/
theorem format_graphic_data_shuffle_changes_element_order :
    shuffleDfA.Perm shuffleDfB ∧
    format_graphic_data shuffleDfA 5 false .bySection (some .ascending)
      = .ok ([⟨"A", "x", "", ""⟩, ⟨"A", "y", "", ""⟩], [⟨"A", 2, 1⟩]) ∧
    format_graphic_data shuffleDfB 5 false .bySection (some .ascending)
      = .ok ([⟨"A", "y", "", ""⟩, ⟨"A", "x", "", ""⟩], [⟨"A", 2, 1⟩]) ∧
    ([⟨"A", "x", "", ""⟩, ⟨"A", "y", "", ""⟩] : List ElementRow)
      ≠ [⟨"A", "y", "", ""⟩, ⟨"A", "x", "", ""⟩] :=
  ⟨by decide, rfl, rfl, by decide⟩

/-- Claim C8, amended: grouping is deterministic and its output order
uses the computed section order as primary key and the original row
index of the given table as secondary key: the output elements are a
permutation of the input rows, their section ranks are monotone in the
output section order, and the slice of the output belonging to any one
section equals the input rows of that section in input order.
Consequently regrouping the same table reproduces the same output, and
shuffling the input rows leaves the section frame unchanged — but
element order within a section follows the given table's row order, so
it is not shuffle-invariant (see the counterexample). -/
theorem format_graphic_data_order_spec :
    (∀ (df : List DataRow) (epr : Int) (off : Bool) (ssb : SectionSortBy)
       (sso : Option SortOrder) (eo : List ElementRow) (so : List SectionRow),
      format_graphic_data df epr off ssb sso = .ok (eo, so) →
        eo.Perm (df.map toElementRow) ∧
        eo.Pairwise (fun a b =>
          sectionRank (so.map (·.sectionKey)) a.sectionKey ≤
            sectionRank (so.map (·.sectionKey)) b.sectionKey) ∧
        (∀ s, eo.filter (fun r => r.sectionKey == s)
          = (df.map toElementRow).filter (fun r => r.sectionKey == s))) ∧
    (∀ (df1 df2 : List DataRow) (epr : Int) (off : Bool) (ssb : SectionSortBy)
       (sso : Option SortOrder) (eo1 eo2 : List ElementRow)
       (so1 so2 : List SectionRow),
      df1.Perm df2 →
      format_graphic_data df1 epr off ssb sso = .ok (eo1, so1) →
      format_graphic_data df2 epr off ssb sso = .ok (eo2, so2) →
      so1 = so2) := by
  constructor
  · intro df epr off ssb sso eo so h
    obtain ⟨pairs, _, _, heo⟩ := formatTail_ok_inv (format_ok_inv h)
    subst heo
    exact ⟨sortedElems_perm _ _, sortedElems_pairwise _ _,
      fun s => sortedElems_filter _ _ s⟩
  · intro df1 df2 epr off ssb sso eo1 eo2 so1 so2 hperm h1 h2
    obtain ⟨p1, hp1, hso1, _⟩ := formatTail_ok_inv (format_ok_inv h1)
    obtain ⟨p2, hp2, hso2, _⟩ := formatTail_ok_inv (format_ok_inv h2)
    rw [groupPairs_perm_eq (hperm.map toElementRow)] at hp1
    rw [hp1] at hp2
    rw [hso1, hso2, Except.ok.inj hp2]

/-- Witness for C8 (amended): the characterization holds at the concrete
two-row single-section table of the counterexample. -/
theorem format_graphic_data_order_spec_witness :
    format_graphic_data shuffleDfA 5 false .bySection (some .ascending)
      = .ok ([⟨"A", "x", "", ""⟩, ⟨"A", "y", "", ""⟩], [⟨"A", 2, 1⟩]) ∧
    (([⟨"A", "x", "", ""⟩, ⟨"A", "y", "", ""⟩] : List ElementRow).Perm
        (shuffleDfA.map toElementRow) ∧
      ([⟨"A", "x", "", ""⟩, ⟨"A", "y", "", ""⟩] : List ElementRow).Pairwise
        (fun a b =>
          sectionRank (([⟨"A", 2, 1⟩] : List SectionRow).map (·.sectionKey))
              a.sectionKey ≤
            sectionRank (([⟨"A", 2, 1⟩] : List SectionRow).map (·.sectionKey))
              b.sectionKey) ∧
      (∀ s, ([⟨"A", "x", "", ""⟩, ⟨"A", "y", "", ""⟩] : List ElementRow).filter
          (fun r => r.sectionKey == s)
        = (shuffleDfA.map toElementRow).filter (fun r => r.sectionKey == s))) :=
  ⟨rfl,
    format_graphic_data_order_spec.1 shuffleDfA 5 false .bySection
      (some .ascending) [⟨"A", "x", "", ""⟩, ⟨"A", "y", "", ""⟩]
      [⟨"A", 2, 1⟩] rfl⟩

end GraphicDesigner
